import Mathlib

/-!
Verification development for the Cold Outreach API backend (`src/main.py`).

The backend is a FastAPI service with create/list routes backed by a document
store, a diagnostic endpoint, and an email-generation endpoint that either
renders a deterministic template (no credential configured) or calls an
external text-generation API and parses its reply with fallbacks.

We shallowly embed the handlers as pure Lean functions.  JSON-ish dynamic
values are modelled by the `Json` inductive; Python truthiness, `str()`
rendering, slicing and lower-casing are modelled explicitly.  The network is
an oracle `Json → UpstreamReply` mapping the outbound request payload to the
observed outcome of the `requests.post` / `raise_for_status` / `r.json()` /
content-extraction chain; the inner `json.loads(content)` outcome is carried
alongside the raw content string.
-/

/-- Dynamic JSON-like value, as manipulated by the Python handlers. -/
inductive Json where
  | null : Json
  | bool (b : Bool) : Json
  | num (n : Int) : Json
  | str (s : String) : Json
  | arr (elems : List Json) : Json
  | obj (fields : List (String × Json)) : Json
deriving Repr

/-- A record (Python dict with string keys), as stored and returned by routes. -/
abbrev Rec := List (String × Json)

/-- Python truthiness of a JSON value: None, False, 0, "", [] and the empty
dict are falsy, everything else is truthy. -/
def pyTruthy : Json → Bool
  | Json.null => false
  | Json.bool b => b
  | Json.num n => n != 0
  | Json.str s => s != ""
  | Json.arr elems => !elems.isEmpty
  | Json.obj fields => !fields.isEmpty

/-- Truthiness of an optional environment string (`os.getenv` result):
None and the empty string are falsy. -/
def pyTruthyStrOpt : Option String → Bool
  | none => false
  | some s => s != ""

/-- Python string slicing `s[:n]` (by characters). -/
def pyTake (n : Nat) (s : String) : String := String.mk (s.data.take n)

/-- Python `str.lower()` restricted to ASCII case mapping, which covers every
string this service lower-cases. -/
def pyLower (s : String) : String := String.mk (s.data.map Char.toLower)

mutual
/-- Python `str()` of a JSON value (used on `it.get("_id")` results). -/
def pyStr : Json → String
  | Json.null => "None"
  | Json.bool true => "True"
  | Json.bool false => "False"
  | Json.num n => toString n
  | Json.str s => s
  | Json.arr elems => "[" ++ pyStrList elems ++ "]"
  | Json.obj fields => "\x7b" ++ pyStrFields fields ++ "\x7d"

/-- Comma-separated rendering of array elements. -/
def pyStrList : List Json → String
  | [] => ""
  | [v] => pyStr v
  | v :: rest => pyStr v ++ ", " ++ pyStrList rest

/-- Comma-separated rendering of object fields. -/
def pyStrFields : List (String × Json) → String
  | [] => ""
  | [(k, v)] => k ++ ": " ++ pyStr v
  | (k, v) :: rest => k ++ ": " ++ pyStr v ++ ", " ++ pyStrFields rest
end

/-- Python `str()` of a `dict.get` result: `str(None) = "None"`. -/
def pyStrOpt : Option Json → String
  | none => "None"
  | some v => pyStr v

/-- Python `d.get(key)` on a dict modelled as an association list. -/
def recGet : Rec → String → Option Json
  | [], _ => none
  | (k, v) :: rest, key => if k = key then some v else recGet rest key

/-- Python `d[key] = v`: overwrite the existing key or append a new one. -/
def recSet : Rec → String → Json → Rec
  | [], key, v => [(key, v)]
  | (k, w) :: rest, key, v =>
      if k = key then (key, v) :: rest else (k, w) :: recSet rest key v

/-- Python `x or default` applied to a `dict.get` result, as in
`parsed.get("subject") or "Quick question"`. -/
def pyOrJson (v : Option Json) (default : Json) : Json :=
  match v with
  | none => default
  | some x => if pyTruthy x then x else default

-- -----------------------------
-- Schemas (src/main.py lines 22-51)
-- -----------------------------

/-- Schema `GenerateRequest` (tone defaults to "friendly", call_to_action to
"Book a quick call?"; defaults are applied by `mkGenerateRequest`). -/
structure GenerateRequest where
  product : String
  audience : String
  tone : String
  call_to_action : String
deriving Repr

/-- Construction of a `GenerateRequest` from just the required fields, applying
the schema defaults `tone = "friendly"` and `call_to_action = "Book a quick call?"`. -/
def mkGenerateRequest (product audience : String) : GenerateRequest :=
  ⟨product, audience, "friendly", "Book a quick call?"⟩

/-- Schema `Workspace`: name plus an owner email (validated as `EmailStr`). -/
structure Workspace where
  name : String
  owner_email : String
deriving Repr

/-- Schema `Prospect`: required email plus optional descriptive fields. -/
structure Prospect where
  email : String
  first_name : Option String
  last_name : Option String
  company : Option String
  title : Option String
deriving Repr

/-- The `HTTPException` raised by the generation route: status code and detail. -/
structure HTTPError where
  status_code : Nat
  detail : String
deriving Repr, DecidableEq

/-- The dict `{"subject": ..., "body": ...}` returned by `generate_email`
(field values are dynamic, hence `Json`). -/
structure GenResult where
  subject : Json
  body : Json
deriving Repr

-- -----------------------------
-- AI Email Generation (src/main.py lines 113-161)
-- -----------------------------

/-- Outcome of `json.loads(content)` on the reply content: it either raises
(malformed JSON) or produces a value. -/
inductive ContentParse where
  | malformed : ContentParse
  | value (v : Json) : ContentParse
deriving Repr

/-- Observed outcome of the outbound call chain in the credentialed branch:
`requests.post` may raise (transport failure or timeout), `raise_for_status`
may raise on a non-success status, `r.json()` may raise on an unparsable
response body, the `data["choices"][0]["message"]["content"]` extraction may
raise, or a content string is obtained (together with what `json.loads` does
on it). -/
inductive UpstreamReply where
  | transportError (msg : String) : UpstreamReply
  | statusError (status : Nat) (msg : String) : UpstreamReply
  | jsonError (msg : String) : UpstreamReply
  | shapeError (msg : String) : UpstreamReply
  | content (raw : String) (parse : ContentParse) : UpstreamReply
deriving Repr

/-- The JSON payload sent to the external generation endpoint
(src/main.py lines 134-145). -/
def openai_payload (req : GenerateRequest) : Json :=
  Json.obj
    [ ("model", Json.str "gpt-4o-mini"),
      ("messages", Json.arr
        [ Json.obj
            [ ("role", Json.str "system"),
              ("content", Json.str "You write concise, high-converting cold emails.") ],
          Json.obj
            [ ("role", Json.str "user"),
              ("content", Json.str
                ("Generate a short cold email with subject and body as JSON. " ++
                 "Product: " ++ req.product ++ ". Audience: " ++ req.audience ++
                 ". Tone: " ++ req.tone ++ ". CTA: " ++ req.call_to_action ++ ".")) ] ]),
      ("response_format", Json.obj [("type", Json.str "json_object")]) ]

/-- Subject of the template fallback (src/main.py line 119). -/
def template_subject (req : GenerateRequest) : String :=
  "Quick idea about " ++ req.product ++ " for " ++ req.audience

/-- Body of the template fallback (src/main.py lines 120-125). -/
def template_body (req : GenerateRequest) : String :=
  "Hi there,\n\n" ++
  "I noticed you\x27re working with " ++ req.audience ++ ". We built " ++
  req.product ++ " that could help a lot.\n\n" ++
  "Would you be open to " ++ pyLower req.call_to_action ++ "\n\n" ++
  "Best,\nYour Name"

/-- The `HTTPException(status_code=500, detail=f"Generation error: ...")`
raised in the outer except clause (src/main.py line 161). -/
def generationError (msg : String) : HTTPError :=
  ⟨500, "Generation error: " ++ pyTake 150 msg⟩

/-- Handler `generate_email` (src/main.py lines 115-161).  `apiKey` is the
module-level `OPENAI_API_KEY`; `net` is the network oracle giving the outcome
of the outbound call for the payload actually sent.  If the key is falsy the
deterministic template is returned.  Otherwise the reply is parsed: terminal
failures of the call chain reach the outer except clause and raise a 500;
a received content string falls back field-by-field (inner try/except:
`json.loads` failure — or `parsed.get` raising on a non-dict value — yields
subject "Quick question" with the raw content as body; on a dict, falsy or
absent fields are replaced by the defaults). -/
def generate_email (apiKey : Option String) (net : Json → UpstreamReply)
    (req : GenerateRequest) : Except HTTPError GenResult :=
  if pyTruthyStrOpt apiKey then
    match net (openai_payload req) with
    | UpstreamReply.transportError m => Except.error (generationError m)
    | UpstreamReply.statusError _ m => Except.error (generationError m)
    | UpstreamReply.jsonError m => Except.error (generationError m)
    | UpstreamReply.shapeError m => Except.error (generationError m)
    | UpstreamReply.content raw parse =>
      match parse with
      | ContentParse.malformed =>
          Except.ok ⟨Json.str "Quick question", Json.str raw⟩
      | ContentParse.value (Json.obj fields) =>
          Except.ok
            ⟨pyOrJson (recGet fields "subject") (Json.str "Quick question"),
             pyOrJson (recGet fields "body") (Json.str "Hi, quick note about our product.")⟩
      | ContentParse.value _ =>
          Except.ok ⟨Json.str "Quick question", Json.str raw⟩
  else
    Except.ok ⟨Json.str (template_subject req), Json.str (template_body req)⟩

/-- Subject field of a generation outcome, when the request did not fail. -/
def emailSubject : Except HTTPError GenResult → Option Json
  | Except.ok r => some r.subject
  | Except.error _ => none

/-- Body field of a generation outcome, when the request did not fail. -/
def emailBody : Except HTTPError GenResult → Option Json
  | Except.ok r => some r.body
  | Except.error _ => none

/-- A network oracle used to instantiate theorems at concrete inputs. -/
def netUnused : Json → UpstreamReply := fun _ => UpstreamReply.transportError ""

/-- The request of the spec example: product "Acme", audience "startups",
default tone and call_to_action. -/
def reqAcme : GenerateRequest := mkGenerateRequest "Acme" "startups"

/-- Whether the outbound call chain failed before a content string was
obtained (transport failure or timeout, non-success status, unparsable
response body, or missing choices/message/content shape). -/
def upstreamFailed : UpstreamReply → Bool
  | UpstreamReply.content _ _ => false
  | _ => true

/-- The exception text carried by a failed outbound call. -/
def upstreamFailMsg : UpstreamReply → String
  | UpstreamReply.transportError m => m
  | UpstreamReply.statusError _ m => m
  | UpstreamReply.jsonError m => m
  | UpstreamReply.shapeError m => m
  | UpstreamReply.content _ _ => ""

-- -----------------------------
-- Diagnostic endpoint (src/main.py lines 60-85)
-- -----------------------------

/-- Observable condition of the `db` handle when `/test` probes it: either the
handle is `None`, or it is present and `list_collection_names()` either raises
with some message or returns a list of names. -/
inductive DbState where
  | absent : DbState
  | listFails (msg : String) : DbState
  | working (names : List String) : DbState
deriving Repr, DecidableEq

/-- The response dict built by `test_database`; every key of the Python dict is
a field, so each is present in every response. -/
structure TestResponse where
  backend : String
  database : String
  database_url : Option String
  database_name : Option String
  connection_status : String
  collections : List String
deriving Repr, DecidableEq

/-- Handler `test_database` (src/main.py lines 60-85): starts from a default
response dict and upgrades it according to the store condition, truncating a
collection-listing failure message to 80 characters and taking at most 10
collection names; every failure is reported as a status string in the
`database` field, never raised. -/
def test_database (store : DbState) (dbUrl dbName : Option String) : TestResponse :=
  match store with
  | DbState.absent =>
      ⟨"✅ Running", "⚠️ Available but not initialized", none, none, "Not Connected", []⟩
  | DbState.listFails msg =>
      ⟨"✅ Running", "⚠️ Connected but Error: " ++ pyTake 80 msg,
       some (if pyTruthyStrOpt dbUrl then "✅ Set" else "❌ Not Set"),
       some (dbName.getD ""), "Not Connected", []⟩
  | DbState.working names =>
      ⟨"✅ Running", "✅ Connected & Working",
       some (if pyTruthyStrOpt dbUrl then "✅ Set" else "❌ Not Set"),
       some (dbName.getD ""), "Connected", names.take 10⟩

-- -----------------------------
-- Document store and create/list routes (src/main.py lines 87-108, 170-173)
-- -----------------------------

/-- Modelled from the spec: the document store behind `create_document` and
`get_documents` (database.py is not under src/).  Per the adapter contract,
`create(collection_name, record) -> id` durably inserts one record and returns
a unique identifier as a string; we realize this with a counter-indexed log of
(collection, record) insertions, the identifier being "id-" followed by the
counter value. -/
structure Store where
  nextId : Nat
  log : List (String × Rec)
deriving Repr

/-- Modelled from the spec: `create(collection_name, record) -> id` of the
store adapter — inserts the record into the named collection and returns a
unique string identifier. -/
def create_document (coll : String) (record : Rec) (s : Store) : String × Store :=
  ("id-" ++ toString s.nextId, ⟨s.nextId + 1, (coll, record) :: s.log⟩)

/-- Modelled from the spec: `list(collection_name, filter, limit)` of the store
adapter — returns up to `limit` matching records; `list_campaigns` passes the
empty filter, under which every record of the collection matches. -/
def get_documents (docs : List Rec) (limit : Nat) : List Rec :=
  docs.take limit

/-- The `model_dump()` of a `Workspace`. -/
def workspaceDump (ws : Workspace) : Rec :=
  [("name", Json.str ws.name), ("owner_email", Json.str ws.owner_email)]

/-- A Python `Optional[str]` rendered into a JSON record field. -/
def optStrJson : Option String → Json
  | none => Json.null
  | some s => Json.str s

/-- The `model_dump()` of a `Prospect`. -/
def prospectDump (p : Prospect) : Rec :=
  [("email", Json.str p.email), ("first_name", optStrJson p.first_name),
   ("last_name", optStrJson p.last_name), ("company", optStrJson p.company),
   ("title", optStrJson p.title)]

/-- Handler `create_workspace` (src/main.py lines 87-90): persists the dump
and returns the id merged with the dump, together with the new store. -/
def create_workspace (ws : Workspace) (s : Store) : Rec × Store :=
  let r := create_document "workspace" (workspaceDump ws) s
  (("id", Json.str r.1) :: workspaceDump ws, r.2)

/-- Handler `create_prospect` (src/main.py lines 92-95). -/
def create_prospect (p : Prospect) (s : Store) : Rec × Store :=
  let r := create_document "prospect" (prospectDump p) s
  (("id", Json.str r.1) :: prospectDump p, r.2)

/-- Split of a character list at every occurrence of a separator (the
character-level counterpart of Python `str.split(sep)`). -/
def splitOnChar (c : Char) : List Char → List (List Char)
  | [] => [[]]
  | x :: xs =>
    match splitOnChar c xs with
    | [] => [[]]
    | grp :: rest => if x = c then [] :: grp :: rest else (x :: grp) :: rest

/-- Modelled from the spec: pydantic `EmailStr` syntactic validation (the
email-validator library is not under src/).  An address is accepted when it
has exactly one at-sign separating a nonempty local part from a domain that
contains a dot, neither side contains a space, and no dot-separated domain
label is empty. -/
def isValidEmail (s : String) : Bool :=
  match splitOnChar '@' s.data with
  | [lp, dom] =>
      !lp.isEmpty && !dom.isEmpty && !lp.contains ' ' && !dom.contains ' ' &&
      dom.contains '.' && (splitOnChar '.' dom).all (fun label => !label.isEmpty)
  | _ => false

/-- A FastAPI request-validation failure (HTTP 422) naming the offending
fields. -/
structure ValidationErr where
  status_code : Nat
  fields : List String
deriving Repr, DecidableEq

/-- Route `POST /workspaces` as seen from the wire: FastAPI validates the
payload against the `Workspace` schema before the handler runs, so a payload
whose `owner_email` is not a valid email is rejected with a 422 naming the
field and the handler — hence the store write — never executes. -/
def create_workspace_route (ws : Workspace) (s : Store) :
    Except ValidationErr Rec × Store :=
  if isValidEmail ws.owner_email then
    let r := create_workspace ws s
    (Except.ok r.1, r.2)
  else
    (Except.error ⟨422, ["owner_email"]⟩, s)

/-- Route `POST /prospects` as seen from the wire: payload validation of the
`email` field happens before the handler runs. -/
def create_prospect_route (p : Prospect) (s : Store) :
    Except ValidationErr Rec × Store :=
  if isValidEmail p.email then
    let r := create_prospect p s
    (Except.ok r.1, r.2)
  else
    (Except.error ⟨422, ["email"]⟩, s)

/-- Rewrite of one listed campaign record, as done in the loop body of
`list_campaigns` (src/main.py lines 106-107). -/
def fixCampaignId (r : Rec) : Rec :=
  recSet r "_id" (Json.str (pyStrOpt (recGet r "_id")))

/-- Handler `list_campaigns` (src/main.py lines 102-108): fetches up to
`limit` campaign records and stringifies the `_id` of each in place. -/
def list_campaigns (docs : List Rec) (limit : Nat) : List Rec :=
  (get_documents docs limit).map fixCampaignId

/-- Handler `list_campaigns` with no `limit` query parameter: the FastAPI
default is 20. -/
def list_campaigns_default (docs : List Rec) : List Rec :=
  list_campaigns docs 20

-- -----------------------------
-- Concrete inputs used to instantiate hypothesis-bearing theorems
-- -----------------------------

/-- A network oracle whose content reply is not valid JSON. -/
def netMalformed : Json → UpstreamReply :=
  fun _ => UpstreamReply.content "not json" ContentParse.malformed

/-- A network oracle answering with a non-success HTTP status. -/
def netStatus500 : Json → UpstreamReply :=
  fun _ => UpstreamReply.statusError 500 "Internal Server Error"

/-- A network oracle whose content reply parses to a JSON object with empty
subject and body fields. -/
def netEmptyFields : Json → UpstreamReply :=
  fun _ => UpstreamReply.content "raw reply"
    (ContentParse.value (Json.obj [("subject", Json.str ""), ("body", Json.str "")]))

/-- An exception text of 150 characters, driving the error detail to its
maximal length. -/
def longErrMsg : String := String.mk (List.replicate 150 'x')

/-- An empty store. -/
def store0 : Store := ⟨0, []⟩

/-- A workspace payload with a syntactically valid owner email. -/
def wsSample : Workspace := ⟨"Acme Team", "founder@acme.co"⟩

/-- A prospect payload whose email has no at-sign. -/
def pBadEmail : Prospect := ⟨"no-at-sign", none, none, none, none⟩

/-- A workspace payload whose owner email has an empty domain. -/
def wsBadEmail : Workspace := ⟨"W", "bad@"⟩

/-- A stored campaign record that lacks an `_id` field. -/
def campNoId : Rec := [("name", Json.str "c")]

-- -----------------------------
-- Helper lemmas
-- -----------------------------

/-- Setting a key in a record makes it readable at that key. -/
theorem recGet_recSet (r : Rec) (k : String) (v : Json) :
    recGet (recSet r k v) k = some v := by
  induction r with
  | nil => simp [recSet, recGet]
  | cons hd tl ih =>
      by_cases h : hd.1 = k
      · obtain ⟨a, b⟩ := hd
        simp only at h
        simp [recSet, recGet, h]
      · obtain ⟨a, b⟩ := hd
        simp only at h
        simp [recSet, recGet, h, ih]

/-- The error detail built by the outer except clause is the 18-character
prefix "Generation error: " followed by at most 150 characters of the
exception text, hence at most 168 characters long. -/
theorem generationError_detail_le (msg : String) :
    (generationError msg).detail.length ≤ 168 := by
  have h : (pyTake 150 msg).length ≤ 150 := by
    have he : (pyTake 150 msg).length = (msg.data.take 150).length := rfl
    rw [he, List.length_take]
    exact Nat.min_le_left _ _
  have h2 : (generationError msg).detail.length
      = ("Generation error: " : String).length + (pyTake 150 msg).length := by
    show ("Generation error: " ++ pyTake 150 msg).length = _
    rw [String.length_append]
  have h18 : ("Generation error: " : String).length = 18 := by decide
  omega

-- -----------------------------
-- Claims
-- -----------------------------

/-- C1: with no generation credential configured, `generate_email` on
product "Acme", audience "startups" and the default tone and call_to_action
returns subject exactly "Quick idea about Acme for startups", and its body
contains the lower-cased call to action "book a quick call?". -/
theorem generate_email_template_acme :
    emailSubject (generate_email none netUnused reqAcme) =
      some (Json.str "Quick idea about Acme for startups") ∧
    ∃ b p q, emailBody (generate_email none netUnused reqAcme) = some (Json.str b) ∧
      b = p ++ "book a quick call?" ++ q := by
  refine ⟨rfl, template_body reqAcme,
    "Hi there,\n\nI noticed you\x27re working with startups. We built Acme that could help a lot.\n\nWould you be open to ",
    "\n\nBest,\nYour Name", rfl, ?_⟩
  decide

/-- C2: with a falsy generation credential, `generate_email` is a pure
function of the request alone: its result does not depend on the network
oracle, and it always succeeds with the deterministic template. -/
theorem generate_email_no_key_pure (apiKey : Option String)
    (net1 net2 : Json → UpstreamReply) (req : GenerateRequest)
    (hk : pyTruthyStrOpt apiKey = false) :
    generate_email apiKey net1 req = generate_email apiKey net2 req ∧
    generate_email apiKey net1 req =
      Except.ok ⟨Json.str (template_subject req), Json.str (template_body req)⟩ := by
  constructor <;> simp [generate_email, hk]

/-- Witness for C2 at the concrete request of the spec example and two
distinct network oracles. -/
theorem generate_email_no_key_pure_witness :
    pyTruthyStrOpt none = false ∧
    (generate_email none netUnused reqAcme = generate_email none netMalformed reqAcme ∧
     generate_email none netUnused reqAcme =
       Except.ok ⟨Json.str (template_subject reqAcme), Json.str (template_body reqAcme)⟩) :=
  ⟨rfl, generate_email_no_key_pure none netUnused netMalformed reqAcme rfl⟩

/-- C3: in the credentialed path a malformed reply does not fail the request:
if `json.loads` fails on the received content the result is subject
"Quick question" with the raw content as body; if the content parses to an
object missing the subject field, the returned subject is "Quick question";
if it is missing the body field, the returned body is the generic
"Hi, quick note about our product.". -/
theorem generate_email_malformed_reply_fallback (apiKey : Option String)
    (net : Json → UpstreamReply) (req : GenerateRequest) (raw : String)
    (hk : pyTruthyStrOpt apiKey = true) :
    (net (openai_payload req) = UpstreamReply.content raw ContentParse.malformed →
      generate_email apiKey net req =
        Except.ok ⟨Json.str "Quick question", Json.str raw⟩) ∧
    (∀ fields,
      net (openai_payload req) =
          UpstreamReply.content raw (ContentParse.value (Json.obj fields)) →
      recGet fields "subject" = none →
      emailSubject (generate_email apiKey net req) = some (Json.str "Quick question")) ∧
    (∀ fields,
      net (openai_payload req) =
          UpstreamReply.content raw (ContentParse.value (Json.obj fields)) →
      recGet fields "body" = none →
      emailBody (generate_email apiKey net req) =
        some (Json.str "Hi, quick note about our product.")) := by
  refine ⟨fun h => ?_, fun fields h hs => ?_, fun fields h hb => ?_⟩
  · simp [generate_email, hk, h]
  · simp [generate_email, hk, h, emailSubject, pyOrJson, hs]
  · simp [generate_email, hk, h, emailBody, pyOrJson, hb]

/-- Witness for C3 at a concrete credential and a malformed-content oracle. -/
theorem generate_email_malformed_reply_fallback_witness :
    pyTruthyStrOpt (some "k") = true ∧
    generate_email (some "k") netMalformed reqAcme =
      Except.ok ⟨Json.str "Quick question", Json.str "not json"⟩ :=
  ⟨rfl,
   (generate_email_malformed_reply_fallback (some "k") netMalformed reqAcme "not json" rfl).1 rfl⟩

/-- Counterexample to C4 as stated: with a 150-character exception text the
route responds with status 500 whose detail message is 168 characters long,
exceeding the claimed bound of 150 (the code truncates only the exception
text, then prepends the 18-character prefix "Generation error: "). -/
theorem generate_email_error_message_over_150 :
    generate_email (some "k") (fun _ => UpstreamReply.transportError longErrMsg) reqAcme =
      Except.error ⟨500, "Generation error: " ++ longErrMsg⟩ ∧
    150 < ("Generation error: " ++ longErrMsg).length := by
  constructor
  · show Except.error (generationError longErrMsg) = _
    have h : pyTake 150 longErrMsg = longErrMsg := by decide
    rw [generationError, h]
  · rw [String.length_append]
    have hm : longErrMsg.length = 150 := by
      show (List.replicate 150 'x').length = 150
      simp
    have h18 : ("Generation error: " : String).length = 18 := by decide
    omega

/-- C4 (amended): when the external generation call times out, returns a
non-success status, or otherwise terminally fails, `generate_email` raises an
HTTPException with status 500 whose detail is "Generation error: " followed by
the exception text truncated to 150 characters — hence at most 168 characters
in total. -/
theorem generate_email_error_500_truncated (apiKey : Option String)
    (net : Json → UpstreamReply) (req : GenerateRequest)
    (hk : pyTruthyStrOpt apiKey = true)
    (hf : upstreamFailed (net (openai_payload req)) = true) :
    generate_email apiKey net req =
      Except.error (generationError (upstreamFailMsg (net (openai_payload req)))) ∧
    (generationError (upstreamFailMsg (net (openai_payload req)))).status_code = 500 ∧
    (generationError (upstreamFailMsg (net (openai_payload req)))).detail.length ≤ 168 := by
  refine ⟨?_, rfl, generationError_detail_le _⟩
  cases h : net (openai_payload req) with
  | transportError m => simp [generate_email, hk, h, upstreamFailMsg]
  | statusError st m => simp [generate_email, hk, h, upstreamFailMsg]
  | jsonError m => simp [generate_email, hk, h, upstreamFailMsg]
  | shapeError m => simp [generate_email, hk, h, upstreamFailMsg]
  | content raw parse => rw [h] at hf; simp [upstreamFailed] at hf

/-- Witness for the amended C4 at a concrete credential and a non-success
status reply. -/
theorem generate_email_error_500_truncated_witness :
    pyTruthyStrOpt (some "k") = true ∧
    upstreamFailed (netStatus500 (openai_payload reqAcme)) = true ∧
    (generate_email (some "k") netStatus500 reqAcme =
       Except.error (generationError (upstreamFailMsg (netStatus500 (openai_payload reqAcme)))) ∧
     (generationError (upstreamFailMsg (netStatus500 (openai_payload reqAcme)))).status_code = 500 ∧
     (generationError (upstreamFailMsg (netStatus500 (openai_payload reqAcme)))).detail.length ≤ 168) :=
  ⟨rfl, rfl, generate_email_error_500_truncated (some "k") netStatus500 reqAcme rfl rfl⟩

/-- C5: `test_database` is a total function of the observed store condition —
it never raises — and for every store condition (handle absent, collection
listing failing, store working) it returns a response with all six keys in
which at most 10 collection names appear, the backend is reported as running,
the connection status is one of the two status strings, and a collection-
listing failure is reported inside the `database` status string rather than
propagated. -/
theorem test_database_total_bounded (store : DbState) (dbUrl dbName : Option String) :
    (test_database store dbUrl dbName).collections.length ≤ 10 ∧
    (test_database store dbUrl dbName).backend = "✅ Running" ∧
    ((test_database store dbUrl dbName).connection_status = "Connected" ∨
     (test_database store dbUrl dbName).connection_status = "Not Connected") ∧
    (∀ msg, (test_database (DbState.listFails msg) dbUrl dbName).database =
      "⚠️ Connected but Error: " ++ pyTake 80 msg) := by
  refine ⟨?_, ?_, ?_, fun msg => rfl⟩
  · cases store with
    | absent => simp [test_database]
    | listFails msg => simp [test_database]
    | working names =>
        simp only [test_database]
        rw [List.length_take]
        exact Nat.min_le_left _ _
  · cases store <;> rfl
  · cases store with
    | absent => exact Or.inr rfl
    | listFails msg => exact Or.inr rfl
    | working names => exact Or.inl rfl

/-- C6: `list_campaigns` returns at most `limit` records, every returned
record carries a string `_id`, and the default when no limit is given is 20. -/
theorem list_campaigns_limit_and_string_id (docs : List Rec) (limit : Nat) :
    (list_campaigns docs limit).length ≤ limit ∧
    (∀ r ∈ list_campaigns docs limit, ∃ s, recGet r "_id" = some (Json.str s)) ∧
    list_campaigns_default docs = list_campaigns docs 20 := by
  refine ⟨?_, ?_, rfl⟩
  · show ((docs.take limit).map fixCampaignId).length ≤ limit
    rw [List.length_map, List.length_take]
    exact Nat.min_le_left _ _
  · intro r hr
    obtain ⟨a, ha, rfl⟩ := List.mem_map.mp hr
    exact ⟨pyStrOpt (recGet a "_id"), recGet_recSet a "_id" _⟩

/-- Witness for C6 at a one-record collection and limit 1. -/
theorem list_campaigns_limit_and_string_id_witness :
    (list_campaigns [campNoId] 1).length ≤ 1 ∧
    (∃ s, recGet (fixCampaignId campNoId) "_id" = some (Json.str s)) :=
  ⟨(list_campaigns_limit_and_string_id [campNoId] 1).1,
   (list_campaigns_limit_and_string_id [campNoId] 1).2.1 (fixCampaignId campNoId)
     (List.mem_singleton.mpr rfl)⟩

/-- C7: for a valid Workspace payload, `create_workspace` returns a record
with a non-empty string id and the submitted `name` and `owner_email`
unchanged. -/
theorem create_workspace_id_and_fields (ws : Workspace) (s : Store)
    (_hv : isValidEmail ws.owner_email = true) :
    ∃ i, recGet (create_workspace ws s).1 "id" = some (Json.str i) ∧ i ≠ "" ∧
      recGet (create_workspace ws s).1 "name" = some (Json.str ws.name) ∧
      recGet (create_workspace ws s).1 "owner_email" = some (Json.str ws.owner_email) := by
  refine ⟨"id-" ++ toString s.nextId, rfl, ?_, rfl, rfl⟩
  intro h
  have hlen := congrArg String.length h
  rw [String.length_append] at hlen
  have h3 : ("id-" : String).length = 3 := by decide
  rw [h3] at hlen
  have h0 : ("" : String).length = 0 := rfl
  rw [h0] at hlen
  omega

/-- Witness for C7 at a concrete valid payload and the empty store. -/
theorem create_workspace_id_and_fields_witness :
    isValidEmail wsSample.owner_email = true ∧
    (∃ i, recGet (create_workspace wsSample store0).1 "id" = some (Json.str i) ∧ i ≠ "" ∧
      recGet (create_workspace wsSample store0).1 "name" = some (Json.str wsSample.name) ∧
      recGet (create_workspace wsSample store0).1 "owner_email" =
        some (Json.str wsSample.owner_email)) :=
  ⟨by decide, create_workspace_id_and_fields wsSample store0 (by decide)⟩

/-- C8: a Prospect or Workspace payload whose email is not syntactically valid
is rejected with a 422 validation error naming the field, and the store is
unchanged — the handler, hence the store write, never runs. -/
theorem create_rejects_invalid_email (p : Prospect) (ws : Workspace) (s : Store) :
    (isValidEmail p.email = false →
      (create_prospect_route p s).1 = Except.error ⟨422, ["email"]⟩ ∧
      (create_prospect_route p s).2 = s) ∧
    (isValidEmail ws.owner_email = false →
      (create_workspace_route ws s).1 = Except.error ⟨422, ["owner_email"]⟩ ∧
      (create_workspace_route ws s).2 = s) := by
  constructor <;> intro h <;>
    exact ⟨by simp [create_prospect_route, create_workspace_route, h],
           by simp [create_prospect_route, create_workspace_route, h]⟩

/-- Witness for C8 at two concrete malformed payloads and the empty store. -/
theorem create_rejects_invalid_email_witness :
    isValidEmail pBadEmail.email = false ∧
    isValidEmail wsBadEmail.owner_email = false ∧
    ((create_prospect_route pBadEmail store0).1 = Except.error ⟨422, ["email"]⟩ ∧
     (create_prospect_route pBadEmail store0).2 = store0) ∧
    ((create_workspace_route wsBadEmail store0).1 = Except.error ⟨422, ["owner_email"]⟩ ∧
     (create_workspace_route wsBadEmail store0).2 = store0) :=
  ⟨by decide, by decide,
   (create_rejects_invalid_email pBadEmail wsBadEmail store0).1 (by decide),
   (create_rejects_invalid_email pBadEmail wsBadEmail store0).2 (by decide)⟩

/-- C9: in the credentialed path, when the reply content parses to an object
whose subject or body field is present but falsy (Python `or` semantics), the
field is replaced by the same default as an absent field — an empty-string
field is never returned as-is. -/
theorem generate_email_falsy_field_defaults (apiKey : Option String)
    (net : Json → UpstreamReply) (req : GenerateRequest) (raw : String)
    (fields : Rec) (hk : pyTruthyStrOpt apiKey = true)
    (hr : net (openai_payload req) =
      UpstreamReply.content raw (ContentParse.value (Json.obj fields))) :
    (∀ v, recGet fields "subject" = some v → pyTruthy v = false →
      emailSubject (generate_email apiKey net req) = some (Json.str "Quick question")) ∧
    (∀ v, recGet fields "body" = some v → pyTruthy v = false →
      emailBody (generate_email apiKey net req) =
        some (Json.str "Hi, quick note about our product.")) := by
  constructor <;> intro v hv hf <;>
    simp [generate_email, hk, hr, emailSubject, emailBody, pyOrJson, hv, hf]

/-- Witness for C9 at a concrete credential and a reply whose subject and body
are present but empty strings. -/
theorem generate_email_falsy_field_defaults_witness :
    pyTruthyStrOpt (some "k") = true ∧
    pyTruthy (Json.str "") = false ∧
    emailSubject (generate_email (some "k") netEmptyFields reqAcme) =
      some (Json.str "Quick question") ∧
    emailBody (generate_email (some "k") netEmptyFields reqAcme) =
      some (Json.str "Hi, quick note about our product.") :=
  ⟨rfl, rfl,
   (generate_email_falsy_field_defaults (some "k") netEmptyFields reqAcme "raw reply"
      [("subject", Json.str ""), ("body", Json.str "")] rfl rfl).1 (Json.str "") rfl rfl,
   (generate_email_falsy_field_defaults (some "k") netEmptyFields reqAcme "raw reply"
      [("subject", Json.str ""), ("body", Json.str "")] rfl rfl).2 (Json.str "") rfl rfl⟩

/-- C10: a listed campaign record always carries the `_id` key: when the
stored record has no `_id` field, the returned record maps `_id` to the
string "None" (Python `str(None)`), so the key is present with a string
value. -/
theorem list_campaigns_missing_id_none (docs : List Rec) (limit i : Nat) (r : Rec)
    (h1 : (get_documents docs limit)[i]? = some r)
    (h2 : recGet r "_id" = none) :
    (list_campaigns docs limit)[i]? = some (fixCampaignId r) ∧
    recGet (fixCampaignId r) "_id" = some (Json.str "None") := by
  constructor
  · show ((get_documents docs limit).map fixCampaignId)[i]? = _
    rw [List.getElem?_map, h1]
    rfl
  · have hfix : fixCampaignId r = recSet r "_id" (Json.str "None") := by
      rw [fixCampaignId, h2]
      rfl
    rw [hfix]
    exact recGet_recSet r "_id" _

/-- Witness for C10 at a concrete stored record lacking `_id`. -/
theorem list_campaigns_missing_id_none_witness :
    (get_documents [campNoId] 5)[0]? = some campNoId ∧
    recGet campNoId "_id" = none ∧
    ((list_campaigns [campNoId] 5)[0]? = some (fixCampaignId campNoId) ∧
     recGet (fixCampaignId campNoId) "_id" = some (Json.str "None")) :=
  ⟨rfl, rfl, list_campaigns_missing_id_none [campNoId] 5 0 campNoId rfl rfl⟩
